import Mathlib

/-!
Verification of the durable-object counter service (src/index.ts): an
adaptive per-key rate limiter (class Limiter), a persisted integer counter
(class Counter), and the Hono gateway middleware composing them.

Timestamps and millisecond durations are modelled as Int, counts of
consecutive hits as Nat.  Each Durable Object method that reads `this`
is embedded as a function taking the object's state; methods that may
mutate `this` return the updated state.  `Date.now()` is modelled by a
clock function `Nat → Int` together with a tick index: each call to
`Date.now()` reads the next sample, matching the source where both
`checkRateLimit` and `recordRequest` sample the clock internally.
-/

namespace DurableCounter

/-- BASE_WAIT_TIME = 500 ms. -/
def BASE_WAIT_TIME : Int := 500

/-- MAX_WAIT_TIME = 30000 ms. -/
def MAX_WAIT_TIME : Int := 30000

/-- GRACE_PERIOD = 3000 ms. -/
def GRACE_PERIOD : Int := 3000

/-- The per-key state of class Limiter: fields nextAllowedTime and
consecutiveHits, both initialised to 0 in the constructor. -/
structure LimiterState where
  nextAllowedTime : Int
  consecutiveHits : Nat
deriving DecidableEq, Repr

/-- The constructor's initial limiter state: both fields 0. -/
def initialLimiter : LimiterState := { nextAllowedTime := 0, consecutiveHits := 0 }

/-- Limiter.checkRateLimit, with `now` (the internal Date.now() sample)
made an explicit argument.  Returns the reported wait in milliseconds and
the (possibly updated) object state. -/
def checkRateLimit (s : LimiterState) (now : Int) : Int × LimiterState :=
  if now ≥ s.nextAllowedTime then
    (0, s)
  else
    (max 0 (s.nextAllowedTime - now - GRACE_PERIOD), s)

/-- The waitTime expression of Limiter.recordRequest's penalized branch,
evaluated at an (already incremented) consecutiveHits value. -/
def penaltyWaitTime (hits : Nat) : Int :=
  min (BASE_WAIT_TIME * 2 ^ (hits - 1)) MAX_WAIT_TIME

/-- Limiter.recordRequest, with `now` (the internal Date.now() sample)
made an explicit argument.  Returns the updated object state. -/
def recordRequest (s : LimiterState) (now : Int) : LimiterState :=
  if now ≥ s.nextAllowedTime then
    { nextAllowedTime := now + BASE_WAIT_TIME, consecutiveHits := 0 }
  else
    let hits := s.consecutiveHits + 1
    { nextAllowedTime := max s.nextAllowedTime (now + penaltyWaitTime hits),
      consecutiveHits := hits }

/-- Counter storage for the "value" field: `none` when never written. -/
abbrev CounterStorage := Option Int

/-- Counter.getCounterValue: `(await storage.get "value") || 0`. -/
def getCounterValue (st : CounterStorage) : Int :=
  st.getD 0

/-- Counter.increment: read (defaulting to 0), add amount, persist,
return the new value together with the new storage. -/
def increment (st : CounterStorage) (amount : Int) : Int × CounterStorage :=
  let value := st.getD 0 + amount
  (value, some value)

/-- Counter.decrement: read (defaulting to 0), subtract amount, persist,
return the new value together with the new storage. -/
def decrement (st : CounterStorage) (amount : Int) : Int × CounterStorage :=
  let value := st.getD 0 - amount
  (value, some value)

/-- The three routes of the app that reach the counter. -/
inductive Route
  | value
  | incrementRoute
  | decrementRoute
deriving DecidableEq, Repr

/-- The observable HTTP response: a 200 JSON body carrying the counter
value, or the 429 rejection body with its error string and retryAfter
in seconds. -/
inductive Response
  | ok (value : Int)
  | rateLimited (status : Nat) (error : String) (retryAfter : ℚ)
deriving DecidableEq, Repr

/-- The outcome of one request through the gateway: the response and the
final limiter and counter states. -/
structure GatewayResult where
  response : Response
  limiter : LimiterState
  counter : CounterStorage
deriving DecidableEq, Repr

/-- The gateway for one request (the rate-limit middleware of app.use
followed by the matched route handler).  `clock tick` is the Date.now()
sample taken inside checkRateLimit; `clock (tick + 1)` is the one taken
inside recordRequest.  On a positive reported wait the middleware returns
the 429 body and never calls recordRequest nor the route handler. -/
def handleRequest (clock : Nat → Int) (tick : Nat) (route : Route)
    (ls : LimiterState) (cs : CounterStorage) : GatewayResult :=
  let checked := checkRateLimit ls (clock tick)
  let wait := checked.1
  let ls1 := checked.2
  if wait > 0 then
    { response := Response.rateLimited 429 "Rate limit exceeded" ((wait : ℚ) / 1000),
      limiter := ls1, counter := cs }
  else
    let ls2 := recordRequest ls1 (clock (tick + 1))
    match route with
    | Route.value =>
        { response := Response.ok (getCounterValue cs), limiter := ls2, counter := cs }
    | Route.incrementRoute =>
        let stepped := increment cs 1
        { response := Response.ok stepped.1, limiter := ls2, counter := stepped.2 }
    | Route.decrementRoute =>
        let stepped := decrement cs 1
        { response := Response.ok stepped.1, limiter := ls2, counter := stepped.2 }

/-- A two-sample clock exhibiting skew between the check and record
samples of a single request. -/
def skewClock : Nat → Int :=
  fun t => if t = 0 then 900 else 2000

/-- The same two samples as skewClock, delivered at ticks 5 and 6. -/
def skewClockShifted : Nat → Int :=
  fun t => if t = 5 then 900 else 2000

/-- Helper: checkRateLimit returns the object state untouched in both of
its branches. -/
theorem checkRateLimit_state (s : LimiterState) (now : Int) :
    (checkRateLimit s now).2 = s := by
  unfold checkRateLimit
  split <;> rfl

/-- Claim C10: checkRateLimit leaves both nextAllowedTime and
consecutiveHits unchanged: it is a pure read of the limiter state. -/
theorem checkRateLimit_no_mutation (s : LimiterState) (now : Int) :
    (checkRateLimit s now).2 = s :=
  checkRateLimit_state s now

/-- Claim C2: checkRateLimit returns 0 when now is at or past
nextAllowedTime, and otherwise max 0 (nextAllowedTime - now - 3000); in
particular the reported wait can be 0 even though now < nextAllowedTime. -/
theorem checkRateLimit_wait_spec :
    (∀ (s : LimiterState) (now : Int),
      (checkRateLimit s now).1 =
        if now ≥ s.nextAllowedTime then 0
        else max 0 (s.nextAllowedTime - now - 3000)) ∧
    ∃ (s : LimiterState) (now : Int),
      now < s.nextAllowedTime ∧ (checkRateLimit s now).1 = 0 := by
  constructor
  · intro s now
    unfold checkRateLimit GRACE_PERIOD
    split <;> rfl
  · exact ⟨{ nextAllowedTime := 1000, consecutiveHits := 0 }, 0, by decide, by decide⟩

/-- Claim C3: recordRequest resets consecutiveHits to 0 and arms
nextAllowedTime to now + 500 in the open branch, and in the penalized
branch increments consecutiveHits, computes the wait from the incremented
count as min (500 * 2 ^ (hits - 1)) 30000, and takes the max with the old
boundary. -/
theorem recordRequest_spec (s : LimiterState) (now : Int) :
    recordRequest s now =
      if now ≥ s.nextAllowedTime then
        { nextAllowedTime := now + 500, consecutiveHits := 0 }
      else
        { nextAllowedTime :=
            max s.nextAllowedTime
              (now + min (500 * 2 ^ (s.consecutiveHits + 1 - 1)) 30000),
          consecutiveHits := s.consecutiveHits + 1 } := by
  unfold recordRequest penaltyWaitTime BASE_WAIT_TIME MAX_WAIT_TIME
  split <;> rfl

/-- Claim C4: the enforcement boundary never moves backward: after any
recordRequest call, nextAllowedTime is at least its previous value. -/
theorem recordRequest_monotone (s : LimiterState) (now : Int) :
    s.nextAllowedTime ≤ (recordRequest s now).nextAllowedTime := by
  unfold recordRequest BASE_WAIT_TIME
  split
  · simp only
    omega
  · simp only
    exact le_max_left _ _

/-- Claim C5: the penalized-branch wait time never exceeds 30000,
whatever the consecutiveHits count. -/
theorem penaltyWaitTime_le_cap (hits : Nat) : penaltyWaitTime hits ≤ 30000 := by
  unfold penaltyWaitTime MAX_WAIT_TIME
  exact min_le_right _ _

/-- Claim C8: increment by 1 then decrement by 1 on the same key returns
the counter to its prior observable value. -/
theorem increment_decrement_roundtrip (cs : CounterStorage) :
    getCounterValue (decrement (increment cs 1).2 1).2 = getCounterValue cs := by
  cases cs <;> simp [increment, decrement, getCounterValue]

/-- Claim C1 counterexample: at limiter state (10000, 0) and clock 0 the
check reports a positive wait, the gateway leaves the limiter state
untouched, yet recordRequest at that instant would have changed it — so
the rejected path does not apply record. -/
theorem gateway_record_on_reject_counterexample :
    (checkRateLimit { nextAllowedTime := 10000, consecutiveHits := 0 } 0).1 > 0 ∧
    (handleRequest (fun _ => 0) 0 Route.value
        { nextAllowedTime := 10000, consecutiveHits := 0 } none).limiter =
      { nextAllowedTime := 10000, consecutiveHits := 0 } ∧
    recordRequest { nextAllowedTime := 10000, consecutiveHits := 0 } 0 ≠
      { nextAllowedTime := 10000, consecutiveHits := 0 } := by
  refine ⟨by decide, by decide, by decide⟩

/-- Claim C1 amended: the gateway applies recordRequest only on the
admitted path; when check reports a positive wait the request is rejected
and the limiter state is left unchanged. -/
theorem gateway_record_only_admitted (clock : Nat → Int) (tick : Nat) (route : Route)
    (ls : LimiterState) (cs : CounterStorage) :
    (handleRequest clock tick route ls cs).limiter =
      if (checkRateLimit ls (clock tick)).1 > 0 then ls
      else recordRequest ls (clock (tick + 1)) := by
  unfold handleRequest
  simp only [checkRateLimit_state]
  split
  · rfl
  · cases route <;> rfl

/-- Claim C6 counterexample: with the clock advancing between the two
internal Date.now() samples of one request, the gateway's final limiter
state differs from the one obtained when record observes the same sample
as check — the two calls do not share one timestamp. -/
theorem gateway_same_now_counterexample :
    (handleRequest skewClock 0 Route.value
        { nextAllowedTime := 1000, consecutiveHits := 0 } none).limiter ≠
    (handleRequest (fun _ => skewClock 0) 0 Route.value
        { nextAllowedTime := 1000, consecutiveHits := 0 } none).limiter := by
  decide

/-- Claim C6 amended: the gateway passes no timestamp; check and record
each take their own Date.now() sample, and the request outcome depends on
the clock only through those two successive samples. -/
theorem handleRequest_clock_frame (c1 c2 : Nat → Int) (t1 t2 : Nat) (route : Route)
    (ls : LimiterState) (cs : CounterStorage)
    (hcheck : c1 t1 = c2 t2) (hrecord : c1 (t1 + 1) = c2 (t2 + 1)) :
    handleRequest c1 t1 route ls cs = handleRequest c2 t2 route ls cs := by
  unfold handleRequest
  rw [hcheck, hrecord]

/-- Witness for the C6 amended theorem at concrete clocks delivering the
samples 900 and 2000 at ticks 0,1 and 5,6 respectively. -/
theorem handleRequest_clock_frame_witness :
    skewClock 0 = skewClockShifted 5 ∧
    skewClock (0 + 1) = skewClockShifted (5 + 1) ∧
    handleRequest skewClock 0 Route.value
        { nextAllowedTime := 1000, consecutiveHits := 0 } none =
      handleRequest skewClockShifted 5 Route.value
        { nextAllowedTime := 1000, consecutiveHits := 0 } none :=
  ⟨by decide, by decide,
    handleRequest_clock_frame skewClock skewClockShifted 0 5 Route.value
      { nextAllowedTime := 1000, consecutiveHits := 0 } none (by decide) (by decide)⟩

/-- Claim C7: a request whose check reports a positive wait is answered
with status 429, error string "Rate limit exceeded" and retryAfter equal
to the wait divided by 1000 (seconds), and the counter storage is never
touched. -/
theorem rejected_response_spec (clock : Nat → Int) (tick : Nat) (route : Route)
    (ls : LimiterState) (cs : CounterStorage)
    (h : (checkRateLimit ls (clock tick)).1 > 0) :
    (handleRequest clock tick route ls cs).response =
      Response.rateLimited 429 "Rate limit exceeded"
        (((checkRateLimit ls (clock tick)).1 : ℚ) / 1000) ∧
    (handleRequest clock tick route ls cs).counter = cs := by
  unfold handleRequest
  simp only [if_pos h]
  constructor <;> first | rfl | trivial

/-- Witness for C7 at limiter state (10000, 0) and a clock stuck at 0:
the check reports 7000 ms, and the response carries retryAfter 7 s. -/
theorem rejected_response_spec_witness :
    (checkRateLimit { nextAllowedTime := 10000, consecutiveHits := 0 } 0).1 > 0 ∧
    ((handleRequest (fun _ => 0) 0 Route.value
          { nextAllowedTime := 10000, consecutiveHits := 0 } none).response =
        Response.rateLimited 429 "Rate limit exceeded"
          (((checkRateLimit { nextAllowedTime := 10000, consecutiveHits := 0 } 0).1 : ℚ) / 1000) ∧
      (handleRequest (fun _ => 0) 0 Route.value
          { nextAllowedTime := 10000, consecutiveHits := 0 } none).counter = none) :=
  ⟨by decide,
    rejected_response_spec (fun _ => 0) 0 Route.value
      { nextAllowedTime := 10000, consecutiveHits := 0 } none (by decide)⟩

end DurableCounter
